import Mathlib

/-!
Shallow embedding of the smart-reply engine
(`src/smart_reply/smart_reply_engine.py`, class `SmartReplyEngine`).

Conventions of the embedding:
* Python dicts that preserve insertion order are association lists
  `List (String × T)`; `dict.get(k, d)` on a record field becomes an
  `Option` field read with `Option.getD`.
* Python's stable `sorted(xs, key=...)` is `List.insertionSort` with the
  relation `key a ≤ key b`: a stable sort by a total preorder is a unique
  function, so any stable sorting algorithm is a faithful model.
* `re.search(pattern, text, re.IGNORECASE)` is modelled by a small
  executable regular-expression engine (`parseRegex` / `matchRE` /
  `pyRegexSearch`) covering the metacharacters `( ) | * + ? .` and
  backslash-escaped literals, with Python's leftmost / left-biased /
  greedy backtracking semantics and 1-indexed capture groups; an invalid
  pattern is a parse error (`Except.error`), modelling `re.error`.
* File I/O is passed in as data: `_load_data` receives the optional file
  content, and the timestamp `datetime.utcnow()` is a parameter.
-/

namespace SmartReply

/-! ### Python string primitives -/

/-- `str.lower()` (on the ASCII range used by the engine's data). -/
def pyLower (s : String) : String := String.mk (s.data.map Char.toLower)

/-- `str.strip()`: drop leading and trailing whitespace. -/
def pyStripList (l : List Char) : List Char :=
  ((l.dropWhile Char.isWhitespace).reverse.dropWhile Char.isWhitespace).reverse

/-- `str.strip()` on strings. -/
def pyStrip (s : String) : String := String.mk (pyStripList s.data)

/-- Substring occurrence test on character lists. -/
def isInfixList (needle : List Char) : List Char → Bool
  | [] => decide (needle = [])
  | c :: rest => needle.isPrefixOf (c :: rest) || isInfixList needle rest

/-- Python's substring test `needle in hay`. -/
def pyContains (needle hay : String) : Bool := isInfixList needle.data hay.data

/-- Python's `str.replace(pat, repl)`: replace every occurrence, scanning
left to right (an empty pattern inserts `repl` at every boundary). The
`Nat` is structural fuel; every step consumes at least one character, so
any fuel above the input length is enough. -/
def replaceFuel (pat repl : List Char) : Nat → List Char → List Char
  | 0, s => s
  | _ + 1, [] => if pat = [] then repl else []
  | fuel + 1, c :: rest =>
    if pat ≠ [] ∧ pat.isPrefixOf (c :: rest) then
      repl ++ replaceFuel pat repl fuel ((c :: rest).drop pat.length)
    else if pat = [] then
      repl ++ c :: replaceFuel pat repl fuel rest
    else
      c :: replaceFuel pat repl fuel rest

/-- `str.replace` on strings. -/
def pyReplace (s pat repl : String) : String :=
  String.mk (replaceFuel pat.data repl.data (s.data.length + 1) s.data)

/-- Python `str(x)` for an optional capture group: `str(None) = "None"`. -/
def pyStrGroup : Option String → String
  | none => "None"
  | some s => s

/-- Python's `f"{n:03d}"`-style zero padding used for generated ids. -/
def pad3 (n : Nat) : String :=
  if n < 10 then "00" ++ toString n
  else if n < 100 then "0" ++ toString n
  else toString n

/-! ### Regular expressions (model of the `re` module subset in use) -/

/-- Abstract syntax of the supported regular-expression subset. -/
inductive RE where
  | eps : RE
  | ch (c : Char) : RE
  | dot : RE
  | seq (a b : RE) : RE
  | alt (a b : RE) : RE
  | star (a : RE) : RE
  | lazyStar (a : RE) : RE
  | group (n : Nat) (a : RE) : RE
deriving DecidableEq

/-- Reject a further quantifier directly after a quantified atom
(`re.error` "multiple repeat", e.g. the pattern `a**`). -/
def noRepeat (r : RE) (rest : List Char) (g : Nat) :
    Except Unit (RE × List Char × Nat) :=
  match rest with
  | '*' :: _ => .error ()
  | '+' :: _ => .error ()
  | '?' :: _ => .error ()
  | _ => pure (r, rest, g)

/-- The level of the recursive-descent grammar being parsed:
alternation, concatenation, a quantified atom, or an atom. -/
inductive PMode where
  | alt : PMode
  | sq : PMode
  | post : PMode
  | atom : PMode

/-- Recursive-descent parser over the pattern characters. The first `Nat`
is structural fuel bounding the recursion depth (between two fuel steps
the parser either consumes input or moves down one grammar level, so
`4 * (length + 2)` is always enough); the trailing `Nat` is the running
count of opened capture groups, which Python numbers by order of `(`.
An atom is a group, `.`, a backslash-escaped character (modelled as the
literal character), or a literal; a quantifier `*`, `+` or `?` may follow
an atom once, optionally made lazy by a further `?`; a second quantifier,
an unmatched parenthesis, a quantifier with nothing to repeat or a
trailing backslash is `re.error`. -/
def parseM : Nat → PMode → List Char → Nat → Except Unit (RE × List Char × Nat)
  | 0, _, _, _ => .error ()
  | fuel+1, .alt, s, g => do
    let (r, s1, g1) ← parseM fuel .sq s g
    match s1 with
    | '|' :: rest => do
      let (r2, s2, g2) ← parseM fuel .alt rest g1
      pure (.alt r r2, s2, g2)
    | _ => pure (r, s1, g1)
  | fuel+1, .sq, s, g =>
    match s with
    | [] => pure (.eps, [], g)
    | ')' :: _ => pure (.eps, s, g)
    | '|' :: _ => pure (.eps, s, g)
    | _ => do
      let (r, s1, g1) ← parseM fuel .post s g
      let (r2, s2, g2) ← parseM fuel .sq s1 g1
      pure (.seq r r2, s2, g2)
  | fuel+1, .post, s, g => do
    let (r, s1, g1) ← parseM fuel .atom s g
    match s1 with
    | '*' :: '?' :: rest => noRepeat (RE.lazyStar r) rest g1
    | '*' :: rest => noRepeat (RE.star r) rest g1
    | '+' :: '?' :: rest => noRepeat (RE.seq r (RE.lazyStar r)) rest g1
    | '+' :: rest => noRepeat (RE.seq r (RE.star r)) rest g1
    | '?' :: '?' :: rest => noRepeat (RE.alt RE.eps r) rest g1
    | '?' :: rest => noRepeat (RE.alt r RE.eps) rest g1
    | _ => pure (r, s1, g1)
  | fuel+1, .atom, s, g =>
    match s with
    | [] => .error ()
    | '(' :: rest => do
      let (r, s1, g1) ← parseM fuel .alt rest (g+1)
      match s1 with
      | ')' :: rest2 => pure (.group (g+1) r, rest2, g1)
      | _ => .error ()
    | ')' :: _ => .error ()
    | '|' :: _ => .error ()
    | '*' :: _ => .error ()
    | '+' :: _ => .error ()
    | '?' :: _ => .error ()
    | '.' :: rest => pure (.dot, rest, g)
    | '\\' :: c :: rest => pure (.ch c, rest, g)
    | '\\' :: [] => .error ()
    | c :: rest => pure (.ch c, rest, g)

/-- `re.compile(pattern)`: parse the whole pattern; the result is the
syntax tree and the number of capture groups. `Except.error` models
`re.error` (an invalid pattern). -/
def parseRegex (pattern : String) : Except Unit (RE × Nat) :=
  match parseM (4 * (pattern.length + 2)) .alt pattern.data 0 with
  | .error _ => .error ()
  | .ok (r, [], g) => .ok (r, g)
  | .ok (_, _ :: _, _) => .error ()

/-- The type of capture-group stacks: `(group index, captured characters)`
records, most recent first. -/
abbrev GStack := List (Nat × List Char)

/-- The type of matcher continuations. -/
abbrev MCont := List Char → GStack → Option GStack

/-- Greedy repetition (`star`): try one more iteration of the body `m`
first, fall back to the continuation; the structural fuel bounds the
number of iterations (an iteration of a Python `*` body consumes input
whenever the whole repetition can still influence the result, so fuel
beyond the text length changes nothing). -/
def starLoop (m : Nat → List Char → GStack → MCont → Option GStack) :
    Nat → List Char → GStack → MCont → Option GStack
  | 0, s, gs, k => k s gs
  | fuel+1, s, gs, k =>
    (m fuel s gs (fun s1 gs1 => starLoop m fuel s1 gs1 k)).orElse
      (fun _ => k s gs)

/-- Lazy repetition (`*?`): prefer the continuation, iterate the body only
on failure. -/
def lazyLoop (m : Nat → List Char → GStack → MCont → Option GStack) :
    Nat → List Char → GStack → MCont → Option GStack
  | 0, s, gs, k => k s gs
  | fuel+1, s, gs, k =>
    (k s gs).orElse
      (fun _ => m fuel s gs (fun s1 gs1 => lazyLoop m fuel s1 gs1 k))

/-- Backtracking matcher in continuation-passing style, with Python's
semantics: alternation is left-biased, `star` is greedy, `lazyStar`
prefers the shortest extension, `.` matches anything except a newline,
and literals compare case-insensitively (`re.IGNORECASE`). The `Nat` is
the repetition fuel handed to `starLoop` / `lazyLoop`. -/
def matchRE : RE → Nat → List Char → GStack → MCont → Option GStack
  | .eps, _, s, gs, k => k s gs
  | .ch c, _, s, gs, k =>
    match s with
    | [] => none
    | d :: s1 => if c.toLower = d.toLower then k s1 gs else none
  | .dot, _, s, gs, k =>
    match s with
    | [] => none
    | d :: s1 => if d = '\n' then none else k s1 gs
  | .seq a b, fuel, s, gs, k =>
    matchRE a fuel s gs (fun s1 gs1 => matchRE b fuel s1 gs1 k)
  | .alt a b, fuel, s, gs, k =>
    (matchRE a fuel s gs k).orElse (fun _ => matchRE b fuel s gs k)
  | .star a, fuel, s, gs, k => starLoop (matchRE a) fuel s gs k
  | .lazyStar a, fuel, s, gs, k => lazyLoop (matchRE a) fuel s gs k
  | .group n a, fuel, s, gs, k =>
    matchRE a fuel s gs
      (fun s1 gs1 => k s1 ((n, s.take (s.length - s1.length)) :: gs1))

/-- `re.search` at successive start positions: try a match anchored at the
head, else retry on the tail; the leftmost match wins. -/
def reSearchPos (fuel : Nat) (r : RE) : List Char → Option GStack
  | [] => matchRE r fuel [] [] (fun _ gs => some gs)
  | c :: t =>
    match matchRE r fuel (c :: t) [] (fun _ gs => some gs) with
    | some gs => some gs
    | none => reSearchPos fuel r t

/-- `match.groups()`: the tuple of capture groups `1..count`; a group that
did not participate in the match is `None`. -/
def groupsOf (count : Nat) (gs : GStack) : List (Option String) :=
  (List.range count).map (fun i => (gs.lookup (i+1)).map String.mk)

/-- `re.search(pattern, text, re.IGNORECASE)` followed by `.groups()`:
`Except.error` models `re.error` on an invalid pattern, `Except.ok none`
is "no match", `Except.ok (some gs)` is a match with groups `gs`. -/
def pyRegexSearch (pattern text : String) :
    Except Unit (Option (List (Option String))) :=
  match parseRegex pattern with
  | .error _ => .error ()
  | .ok (r, count) =>
    match reSearchPos (text.length + 2) r text.data with
    | none => .ok none
    | some gs => .ok (some (groupsOf count gs))

/-! ### Data model

The persisted records are JSON objects read back with `dict.get`, so every
field is optional (`Option`); `add_*` fills all fields in. -/

/-- A customer record from the CRM collaborator: a flat string-keyed map. -/
def CrmData := List (String × String)
deriving DecidableEq

/-- One entry of `triggers.json` (see `add_trigger`). -/
structure Trigger where
  trigger_id : Option String
  trigger_phrase : Option String
  match_type : Option String
  intent : Option String
  is_active : Option Bool
  priority : Option Int
  created_at : Option String
  updated_at : Option String
deriving DecidableEq

/-- One entry of `responses.json` (see `add_response`). -/
structure Response where
  response_id : Option String
  response_text : Option String
  response_type : Option String
  attachments : Option (List String)
  follow_up_action_id : Option String
  is_active : Option Bool
  created_at : Option String
  updated_at : Option String
deriving DecidableEq

/-- One entry of `mappings.json` (see `add_mapping`). -/
structure Mapping where
  mapping_id : Option String
  trigger_id : Option String
  response_id : Option String
  conditions : List (String × String)
  order_in_sequence : Option Int
  is_active : Option Bool
  created_at : Option String
  updated_at : Option String
deriving DecidableEq

/-- The in-memory state of a `SmartReplyEngine`: `self.triggers`,
`self.responses` (insertion-ordered dicts) and `self.mappings` (a list). -/
structure EngineState where
  triggers : List (String × Trigger)
  responses : List (String × Response)
  mappings : List Mapping
deriving DecidableEq

/-- The value returned from `process_message` on success. -/
structure Reply where
  text : String
  response_type : String
  attachments : List String
deriving DecidableEq

/-! ### Store construction and mutation -/

/-- `_load_data(file_path, default_data)`: the file system is passed in as
`file` (`none` = the file does not exist, `some s` = its content), and
`parse` stands for `json.load` specialised to the expected shape (`none` =
`JSONDecodeError`). The result pairs the loaded collection with the
content newly written to a previously missing file (`"[]"` when the
default is a list, `"{}"` otherwise) — never an error. -/
def loadData {α : Type} (file : Option String) (parse : String → Option α)
    (defaultData : α) (defaultIsList : Bool) : α × Option String :=
  match file with
  | none => (defaultData, some (if defaultIsList then "[]" else "\x7b\x7d"))
  | some s =>
    match parse s with
    | some v => (v, none)
    | none => (defaultData, none)

/-- `SmartReplyEngine.__init__`: load the three stores from their backing
files (each passed as optional content, with its `json.load` parser). -/
def initState (triggersFile responsesFile mappingsFile : Option String)
    (parseT : String → Option (List (String × Trigger)))
    (parseR : String → Option (List (String × Response)))
    (parseM : String → Option (List Mapping)) : EngineState :=
  { triggers := (loadData triggersFile parseT [] false).1
    responses := (loadData responsesFile parseR [] false).1
    mappings := (loadData mappingsFile parseM [] true).1 }

/-- `add_trigger`: always succeeds; the id is `"TRG_" + len+1` zero-padded,
every field of the new record is present. The Python defaults are
`intent=None, priority=10, is_active=True`; `timestamp` stands for
`datetime.utcnow().isoformat() + "Z"`. -/
def addTrigger (st : EngineState) (trigger_phrase match_type : String)
    (intent : Option String) (priority : Int) (is_active : Bool)
    (timestamp : String) : (Bool × String) × EngineState :=
  let trigger_id := "TRG_" ++ pad3 (st.triggers.length + 1)
  let t : Trigger :=
    { trigger_id := some trigger_id
      trigger_phrase := some trigger_phrase
      match_type := some match_type
      intent := intent
      is_active := some is_active
      priority := some priority
      created_at := some timestamp
      updated_at := some timestamp }
  ((true, "Trigger " ++ trigger_id ++ " added successfully."),
    { st with triggers := st.triggers ++ [(trigger_id, t)] })

/-- `add_response`: always succeeds; Python defaults are
`response_type="text", attachments=None, follow_up_action_id=None,
is_active=True`; `attachments if attachments else []` stores `[]` for
`None`. -/
def addResponse (st : EngineState) (response_text response_type : String)
    (attachments : Option (List String)) (follow_up_action_id : Option String)
    (is_active : Bool) (timestamp : String) : (Bool × String) × EngineState :=
  let response_id := "RES_" ++ pad3 (st.responses.length + 1)
  let r : Response :=
    { response_id := some response_id
      response_text := some response_text
      response_type := some response_type
      attachments := some (attachments.getD [])
      follow_up_action_id := follow_up_action_id
      is_active := some is_active
      created_at := some timestamp
      updated_at := some timestamp }
  ((true, "Response " ++ response_id ++ " added successfully."),
    { st with responses := st.responses ++ [(response_id, r)] })

/-- `add_mapping`: fails (returning `False` and leaving the state as it
was) when `trigger_id` is not a key of `self.triggers` or `response_id`
is not a key of `self.responses`; otherwise appends the new mapping.
Python defaults are `conditions=None, order_in_sequence=1,
is_active=True`. -/
def addMapping (st : EngineState) (trigger_id response_id : String)
    (conditions : Option (List (String × String))) (order_in_sequence : Int)
    (is_active : Bool) (timestamp : String) : (Bool × String) × EngineState :=
  if (st.triggers.lookup trigger_id).isNone then
    ((false, "Trigger ID " ++ trigger_id ++ " not found."), st)
  else if (st.responses.lookup response_id).isNone then
    ((false, "Response ID " ++ response_id ++ " not found."), st)
  else
    let mapping_id := "MAP_" ++ pad3 (st.mappings.length + 1)
    let m : Mapping :=
      { mapping_id := some mapping_id
        trigger_id := some trigger_id
        response_id := some response_id
        conditions := conditions.getD []
        order_in_sequence := some order_in_sequence
        is_active := some is_active
        created_at := some timestamp
        updated_at := some timestamp }
    ((true, "Mapping " ++ mapping_id ++ " added successfully."),
      { st with mappings := st.mappings ++ [m] })

/-! ### The resolver (`process_message`) -/

/-- `_preprocess_message`: `message_text.lower().strip()`. -/
def preprocessMessage (message_text : String) : String :=
  pyStrip (pyLower message_text)

/-- `_format_response`: replace each `\x7bcrm_<key>\x7d` token with the
context value (when a non-empty context dict is given), then each
`\x7bregex_group_<i+1>\x7d` token with `str` of the `i`-th captured group
(when a non-empty group tuple is given); `str.replace` replaces every
occurrence and leaves absent tokens untouched. -/
def formatResponse (response_text : String) (crm_data : Option CrmData)
    (matched_groups : Option (List (Option String))) : String :=
  let afterCrm :=
    match crm_data with
    | some d =>
      if d.isEmpty then response_text
      else d.foldl
        (fun acc kv => pyReplace acc ("\x7bcrm_" ++ kv.1 ++ "\x7d") kv.2)
        response_text
    | none => response_text
  match matched_groups with
  | some gs =>
    if gs.isEmpty then afterCrm
    else gs.enum.foldl
      (fun acc ig =>
        pyReplace acc ("\x7bregex_group_" ++ toString (ig.1 + 1) ++ "\x7d")
          (pyStrGroup ig.2))
      afterCrm
  | none => afterCrm

/-- The sort key of `sorted(self.triggers.values(), key=lambda t:
t.get("priority", 10))`. -/
def prioKey (t : Trigger) : Int := t.priority.getD 10

/-- The sort key of `sorted(applicable_mappings, key=lambda m:
m.get("order_in_sequence", 1))`. -/
def seqKey (m : Mapping) : Int := m.order_in_sequence.getD 1

/-- Python's stable `sorted(xs, key=key)`. -/
def pySortedBy {α : Type} (key : α → Int) (l : List α) : List α :=
  l.insertionSort (fun a b => key a ≤ key b)

/-- One iteration of the trigger-matching loop body: `none` when the loop
`continue`s past this trigger (inactive, non-matching, unknown match type,
or `re.error`), `some g` when it `break`s with this trigger matched (`g`
is `match.groups()` for a regex match, `none` — the Python `regex_groups =
None` — otherwise). -/
def triggerAttempt (t : Trigger) (processed : String) :
    Option (Option (List (Option String))) :=
  if ¬ (t.is_active.getD false) then none
  else
    let trigger_phrase := pyLower (t.trigger_phrase.getD "")
    let match_type := t.match_type.getD "exact"
    if match_type = "exact" then
      if processed = trigger_phrase then some none else none
    else if match_type = "contains" then
      if pyContains trigger_phrase processed then some none else none
    else if match_type = "regex" then
      match pyRegexSearch trigger_phrase processed with
      | .error _ => none
      | .ok none => none
      | .ok (some gs) => some (some gs)
    else none

/-- The `for trigger in sorted_triggers` loop: the first trigger whose
attempt succeeds wins, together with its `regex_groups`. -/
def findMatch (ts : List Trigger) (processed : String) :
    Option (Trigger × Option (List (Option String))) :=
  match ts with
  | [] => none
  | t :: rest =>
    match triggerAttempt t processed with
    | some g => some (t, g)
    | none => findMatch rest processed

/-- The mapping-collection loop: mappings whose `trigger_id` equals the
matched trigger's (`None == None` included, as in Python) and whose
`is_active` flag reads `true` (default `False`). -/
def applicableMappings (mappings : List Mapping) (matched : Trigger) :
    List Mapping :=
  mappings.filter
    (fun m => m.trigger_id == matched.trigger_id && m.is_active.getD false)

/-- The CRM fallback: `if not current_crm_data and self.crm_module and
user_telegram_id:` — an absent or empty context dict, a present CRM
module and a truthy id trigger the lookup (whose result, possibly `None`,
replaces the context). -/
def resolveCrm (crm_module : Option (String → Option CrmData))
    (user_telegram_id : Option String) (crm_data : Option CrmData) :
    Option CrmData :=
  let falsy := match crm_data with
    | none => true
    | some d => d.isEmpty
  match crm_module, user_telegram_id with
  | some find_customer, some uid =>
    if falsy = true ∧ uid ≠ "" then find_customer uid else crm_data
  | _, _ => crm_data

/-- `process_message(message_text, user_telegram_id, crm_data)`: `none` is
Python's `return None` (the no-reply outcome). -/
def processMessage (st : EngineState)
    (crm_module : Option (String → Option CrmData)) (message_text : String)
    (user_telegram_id : Option String) (crm_data : Option CrmData) :
    Option Reply :=
  let processed_text := preprocessMessage message_text
  let sorted_triggers := pySortedBy prioKey (st.triggers.map Prod.snd)
  match findMatch sorted_triggers processed_text with
  | none => none
  | some (matched_trigger, regex_groups) =>
    let applicable := applicableMappings st.mappings matched_trigger
    if applicable.isEmpty then none
    else
      match pySortedBy seqKey applicable with
      | [] => none
      | selected_mapping :: _ =>
        match selected_mapping.response_id with
        | none => none
        | some response_id =>
          if response_id = "" then none
          else
            match st.responses.lookup response_id with
            | none => none
            | some response_template =>
              if response_template.is_active.getD false then
                let current_crm_data :=
                  resolveCrm crm_module user_telegram_id crm_data
                some
                  { text :=
                      formatResponse (response_template.response_text.getD "")
                        current_crm_data regex_groups
                    response_type := response_template.response_type.getD "text"
                    attachments := response_template.attachments.getD [] }
              else none

end SmartReply

namespace SmartReply

/-! ### Concrete fixtures (used by scenario conjuncts and witnesses) -/

/-- The state of a freshly constructed engine over empty stores. -/
def emptyState : EngineState := ⟨[], [], []⟩

/-- The end-to-end greeting scenario: trigger `hello` (Exact, priority
10), response `Hello there \x7bcrm_name\x7d!`, one mapping linking them. -/
def greetState : EngineState :=
  (addMapping
    ((addResponse
      ((addTrigger emptyState "hello" "exact" (some "greeting") 10 true
        "2024-01-01T00:00:00Z").2)
      "Hello there \x7bcrm_name\x7d!" "text" none none true
      "2024-01-01T00:00:01Z").2)
    "TRG_001" "RES_001" none 1 true "2024-01-01T00:00:02Z").2

/-- An active Exact trigger with phrase `hello`. -/
def helloTrigger : Trigger :=
  ⟨some "TRG_001", some "hello", some "exact", some "greeting", some true,
    some 10, some "T0", some "T0"⟩

/-- An active Exact trigger whose phrase ` hello` carries a leading
space. -/
def spacedTrigger : Trigger :=
  ⟨some "TRG_001", some " hello", some "exact", none, some true, some 10,
    some "T0", some "T0"⟩

/-- The greeting scenario built over `spacedTrigger`'s phrase instead of
`hello`: identical response and mapping, only the trigger phrase differs. -/
def spacedState : EngineState :=
  (addMapping
    ((addResponse
      ((addTrigger emptyState " hello" "exact" none 10 true
        "2024-01-01T00:00:00Z").2)
      "Hello there \x7bcrm_name\x7d!" "text" none none true
      "2024-01-01T00:00:01Z").2)
    "TRG_001" "RES_001" none 1 true "2024-01-01T00:00:02Z").2

/-- An active Regex trigger with phrase `how much is (.+)`. -/
def howMuchTrigger : Trigger :=
  ⟨some "TRG_001", some "how much is (.+)", some "regex", none, some true,
    some 10, some "T0", some "T0"⟩

/-- The regex pricing scenario: trigger `how much is (.+)`, response
`The price for \x7bregex_group_1\x7d is $X.XX`, one mapping. -/
def priceState : EngineState :=
  (addMapping
    ((addResponse
      ((addTrigger emptyState "how much is (.+)" "regex" none 10 true
        "2024-01-01T00:00:00Z").2)
      "The price for \x7bregex_group_1\x7d is $X.XX" "markdown" none none
      true "2024-01-01T00:00:01Z").2)
    "TRG_001" "RES_001" none 1 true "2024-01-01T00:00:02Z").2

/-- An active Regex trigger whose phrase `(` is not a valid regular
expression. -/
def badRegexTrigger : Trigger :=
  ⟨some "TRG_000", some "(", some "regex", none, some true, some 1,
    some "T0", some "T0"⟩

/-- First of two equal-priority triggers matching `hi` (inserted first). -/
def hiFirstTrigger : Trigger :=
  ⟨some "TRG_001", some "hi", some "exact", some "first", some true, some 5,
    some "T0", some "T0"⟩

/-- Second of two equal-priority triggers matching `hi` (inserted after
`hiFirstTrigger`; it differs from it in id and intent). -/
def hiSecondTrigger : Trigger :=
  ⟨some "TRG_002", some "hi", some "exact", some "second", some true, some 5,
    some "T1", some "T1"⟩

/-- A store holding the two equal-priority `hi` triggers in insertion
order. -/
def hiState : EngineState :=
  ⟨[("TRG_001", hiFirstTrigger), ("TRG_002", hiSecondTrigger)], [], []⟩

/-- The greeting scenario with `badRegexTrigger` prepended at a smaller
priority, so the invalid pattern is scanned first. -/
def mixedState : EngineState :=
  { greetState with
    triggers := ("TRG_000", badRegexTrigger) :: greetState.triggers }

/-- A store holding only the `hello` trigger: no mappings at all. -/
def triggerOnlyState : EngineState := ⟨[("TRG_001", helloTrigger)], [], []⟩

/-- An active mapping from `TRG_001` to the nonexistent response
`RES_404`. -/
def danglingMapping : Mapping :=
  ⟨some "MAP_001", some "TRG_001", some "RES_404", [], some 1, some true,
    some "T0", some "T0"⟩

/-- The `hello` trigger wired to a mapping whose response id is absent
from the response store. -/
def danglingState : EngineState :=
  ⟨[("TRG_001", helloTrigger)], [], [danglingMapping]⟩

/-- A persisted Exact trigger record lacking the `is_active` field. -/
def noFlagTrigger : Trigger :=
  ⟨some "TRG_001", some "hello", some "exact", none, none, some 10, none,
    none⟩

/-! ### Helper lemmas shared between claims -/

/-- A trigger the loop does not skip has its `is_active` field present and
`true` (`trigger.get("is_active", False)` must read `True`). -/
theorem attempt_some_active {t : Trigger} {p : String}
    {g : Option (List (Option String))} (h : triggerAttempt t p = some g) :
    t.is_active = some true := by
  by_cases ha : t.is_active.getD false
  · cases hact : t.is_active with
    | none => rw [hact] at ha; simp at ha
    | some b => rw [hact] at ha; simp at ha; rw [ha]
  · unfold triggerAttempt at h
    rw [if_pos ha] at h
    exact absurd h (by simp)

/-- A scan over triggers that are all skipped finds nothing. -/
theorem findMatch_none_of_all {L : List Trigger} {p : String}
    (h : ∀ u ∈ L, triggerAttempt u p = none) : findMatch L p = none := by
  induction L with
  | nil => rfl
  | cons t rest ih =>
    have ht := h t (List.mem_cons_self t rest)
    unfold findMatch
    rw [ht]
    exact ih (fun u hu => h u (List.mem_cons_of_mem t hu))

/-- A successful scan returns a member of the list together with its
successful attempt. -/
theorem findMatch_some_mem {L : List Trigger} {p : String} {t : Trigger}
    {g : Option (List (Option String))} (h : findMatch L p = some (t, g)) :
    t ∈ L ∧ triggerAttempt t p = some g := by
  induction L with
  | nil => exact absurd h (by simp [findMatch])
  | cons u rest ih =>
    unfold findMatch at h
    cases hu : triggerAttempt u p with
    | some g0 =>
      rw [hu] at h
      simp only [Option.some.injEq, Prod.mk.injEq] at h
      obtain ⟨rfl, rfl⟩ := h
      exact ⟨List.mem_cons_self u rest, hu⟩
    | none =>
      rw [hu] at h
      obtain ⟨hm, hg⟩ := ih h
      exact ⟨List.mem_cons_of_mem u hm, hg⟩

end SmartReply

namespace SmartReply

/-- C4: rendering replaces `\x7bcrm_<field>\x7d` tokens with context
values when the context holds the field and leaves tokens literal when
the context is absent or the field missing; `\x7bregex_group_<n>\x7d`
tokens are replaced by the 1-indexed captured groups of a Regex match and
left literal otherwise; the end-to-end greeting scenario renders
`Hello there Test User!`. -/
theorem render_placeholder_semantics :
    (∀ t : String, formatResponse t none none = t)
    ∧ processMessage greetState none "hello" none
        (some [("name", "Test User")]) =
        some ⟨"Hello there Test User!", "text", []⟩
    ∧ formatResponse "Hello there \x7bcrm_name\x7d!"
        (some [("status", "VIP")]) none = "Hello there \x7bcrm_name\x7d!"
    ∧ formatResponse "The price for \x7bregex_group_1\x7d is $X.XX" none
        (some [some "the widget"]) = "The price for the widget is $X.XX" :=
  ⟨fun _ => rfl, by decide, by decide, by decide⟩

/-- C5: `add_mapping` fails exactly when the trigger id or the response id
is absent from its store; a failed call leaves the state unchanged, a
successful call appends exactly the new mapping. -/
theorem addMapping_reference_check (st : EngineState) (tid rid : String)
    (conds : Option (List (String × String))) (ord : Int) (act : Bool)
    (ts : String) :
    (((addMapping st tid rid conds ord act ts).1.1 = false) ↔
      ((st.triggers.lookup tid).isNone ∨ (st.responses.lookup rid).isNone))
    ∧ (((st.triggers.lookup tid).isNone ∨ (st.responses.lookup rid).isNone) →
        (addMapping st tid rid conds ord act ts).2 = st)
    ∧ ((st.triggers.lookup tid).isSome → (st.responses.lookup rid).isSome →
        (addMapping st tid rid conds ord act ts).1.1 = true ∧
        (addMapping st tid rid conds ord act ts).2.triggers = st.triggers ∧
        (addMapping st tid rid conds ord act ts).2.responses = st.responses ∧
        (addMapping st tid rid conds ord act ts).2.mappings =
          st.mappings ++
            [{ mapping_id := some ("MAP_" ++ pad3 (st.mappings.length + 1)),
               trigger_id := some tid, response_id := some rid,
               conditions := conds.getD [], order_in_sequence := some ord,
               is_active := some act, created_at := some ts,
               updated_at := some ts }]) := by
  unfold addMapping
  split_ifs with h1 h2
  · exact ⟨by simp [h1], fun _ => rfl,
      fun hs _ => by simp [Option.isNone_iff_eq_none.mp h1] at hs⟩
  · exact ⟨by simp [h1, h2], fun _ => rfl,
      fun _ hs => by simp [Option.isNone_iff_eq_none.mp h2] at hs⟩
  · refine ⟨by simp [h1, h2], fun hor => ?_, fun _ _ => ⟨rfl, rfl, rfl, rfl⟩⟩
    cases hor with
    | inl h => exact absurd h h1
    | inr h => exact absurd h h2

/-- C5 witness: over `greetState`, registering a mapping between the
existing trigger and response succeeds and appends it; with an unknown
trigger id it fails and leaves the state untouched. -/
theorem addMapping_reference_check_witness :
    (addMapping greetState "TRG_009" "RES_001" none 1 true "T9").1.1 =
      false
    ∧ (addMapping greetState "TRG_009" "RES_001" none 1 true "T9").2 =
      greetState
    ∧ (addMapping greetState "TRG_001" "RES_001" none 1 true "T9").1.1 =
      true := by
  refine ⟨?_, ?_, ?_⟩
  · exact (addMapping_reference_check greetState "TRG_009" "RES_001" none 1
      true "T9").1.mpr (by decide)
  · exact (addMapping_reference_check greetState "TRG_009" "RES_001" none 1
      true "T9").2.1 (by decide)
  · exact ((addMapping_reference_check greetState "TRG_001" "RES_001" none 1
      true "T9").2.2 (by decide) (by decide)).1

/-- C9: a store whose backing file is missing starts as the empty
collection and the file is created holding the empty document (`[]` for
the mapping list, `\x7b\x7d` for the dicts); unparsable content likewise
yields the empty collection; no error escapes (`loadData` and `initState`
are total functions). -/
theorem load_missing_or_malformed_defaults :
    (∀ (pT : String → Option (List (String × Trigger)))
       (pR : String → Option (List (String × Response)))
       (pM : String → Option (List Mapping)),
       initState none none none pT pR pM = ⟨[], [], []⟩)
    ∧ (∀ (α : Type) (parse : String → Option α) (d : α) (b : Bool),
        loadData none parse d b = (d, some (if b then "[]" else "\x7b\x7d")))
    ∧ (∀ (α : Type) (parse : String → Option α) (d : α) (b : Bool)
        (s : String), parse s = none → loadData (some s) parse d b =
          (d, none))
    ∧ (∀ (tf rf mf : String)
        (pT : String → Option (List (String × Trigger)))
        (pR : String → Option (List (String × Response)))
        (pM : String → Option (List Mapping)),
        pT tf = none → pR rf = none → pM mf = none →
        initState (some tf) (some rf) (some mf) pT pR pM = ⟨[], [], []⟩) := by
  refine ⟨fun _ _ _ => rfl, fun _ _ _ _ => rfl, ?_, ?_⟩
  · intro α parse d b s h
    simp [loadData, h]
  · intro tf rf mf pT pR pM h1 h2 h3
    simp [initState, loadData, h1, h2, h3]

/-- C9 witness: loading three present files whose content does not parse
yields the empty state, instantiated with parsers that reject the
concrete content `not json`. -/
theorem load_missing_or_malformed_defaults_witness :
    initState (some "not json") (some "not json") (some "not json")
      (fun _ => none) (fun _ => none) (fun _ => none) = ⟨[], [], []⟩ :=
  load_missing_or_malformed_defaults.2.2.2 "not json" "not json" "not json"
    (fun _ => none) (fun _ => none) (fun _ => none) rfl rfl rfl

end SmartReply

namespace SmartReply

/-- C2 counterexample: the code lowercases the trigger phrase but does not
strip it (`trigger.get("trigger_phrase", "").lower()`), so for the Exact
trigger with phrase ` hello` the normalized message `hello` equals the
lowercased-and-stripped phrase, yet the trigger does not match and the
fully wired store produces no reply. -/
theorem exact_match_not_stripped_counterexample :
    pyStrip (pyLower " hello") = pyStrip (pyLower "hello")
    ∧ triggerAttempt spacedTrigger (preprocessMessage "hello") = none
    ∧ processMessage spacedState none "hello" none
        (some [("name", "Test User")]) = none := by decide

/-- C2 (amended): an active Exact trigger matches exactly when the
normalized (lowercased, stripped) message equals the lowercased — but not
whitespace-stripped — trigger phrase; the spec's examples for phrase
`hello` all hold: `Hello`, ` hello `, `HELLO` match and `hello there`
does not. -/
theorem exact_match_characterization :
    (∀ (t : Trigger) (msg : String),
      t.is_active.getD false = true → t.match_type.getD "exact" = "exact" →
      (triggerAttempt t (preprocessMessage msg) = some none ↔
        preprocessMessage msg = pyLower (t.trigger_phrase.getD "")))
    ∧ triggerAttempt helloTrigger (preprocessMessage "Hello") = some none
    ∧ triggerAttempt helloTrigger (preprocessMessage " hello ") = some none
    ∧ triggerAttempt helloTrigger (preprocessMessage "HELLO") = some none
    ∧ triggerAttempt helloTrigger (preprocessMessage "hello there") = none := by
  refine ⟨?_, by decide, by decide, by decide, by decide⟩
  intro t msg ha hmt
  simp only [triggerAttempt, ha, hmt]
  norm_num
  constructor
  · intro h
    by_contra hA
    exact absurd (h hA) (by simp)
  · intro hA hnA
    exact absurd hA hnA

/-- C2 witness: the characterization instantiated at `helloTrigger` and
the message ` HELLO `, whose normalization equals the lowercased phrase. -/
theorem exact_match_characterization_witness :
    triggerAttempt helloTrigger (preprocessMessage " HELLO ") = some none :=
  (exact_match_characterization.1 helloTrigger " HELLO " (by decide)
    (by decide)).mpr (by decide)

/-- C3: an active Regex trigger matches exactly when the lowercased phrase
compiled case-insensitively finds a `search` match in the normalized
message, exposing the captured groups; for phrase `how much is (.+)` the
message `how much is the widget` matches with group 1 = `the widget`,
and the wired store renders it into `\x7bregex_group_1\x7d`. -/
theorem regex_match_characterization :
    (∀ (t : Trigger) (msg : String) (gs : List (Option String)),
      t.is_active.getD false = true → t.match_type.getD "exact" = "regex" →
      (triggerAttempt t (preprocessMessage msg) = some (some gs) ↔
        pyRegexSearch (pyLower (t.trigger_phrase.getD ""))
          (preprocessMessage msg) = .ok (some gs)))
    ∧ findMatch [howMuchTrigger] (preprocessMessage "how much is the widget")
        = some (howMuchTrigger, some [some "the widget"])
    ∧ processMessage priceState none "how much is the widget" none none =
        some ⟨"The price for the widget is $X.XX", "markdown", []⟩ := by
  refine ⟨?_, by decide, by decide⟩
  intro t msg gs ha hmt
  simp only [triggerAttempt, ha, hmt]
  norm_num
  cases h : pyRegexSearch (pyLower (t.trigger_phrase.getD ""))
      (preprocessMessage msg) with
  | error e => simp
  | ok o => cases o with
    | none => simp
    | some gs0 => simp

/-- C3 witness: the characterization instantiated at `howMuchTrigger` and
the example message. -/
theorem regex_match_characterization_witness :
    triggerAttempt howMuchTrigger (preprocessMessage "how much is the widget")
      = some (some [some "the widget"]) :=
  (regex_match_characterization.1 howMuchTrigger "how much is the widget"
    [some "the widget"] (by decide) (by decide)).mpr (by rfl)

/-- C8: a Regex trigger whose phrase does not compile is skipped — the
scan over the remaining triggers is unchanged — and resolution never
fails: with the invalid pattern `(` scanned first, the later `hello`
trigger still matches and the wired store still replies. -/
theorem invalid_regex_skipped :
    (∀ (t : Trigger) (rest : List Trigger) (p : String),
      t.match_type.getD "exact" = "regex" →
      parseRegex (pyLower (t.trigger_phrase.getD "")) = .error () →
      findMatch (t :: rest) p = findMatch rest p)
    ∧ findMatch [badRegexTrigger, helloTrigger] (preprocessMessage "hello")
        = some (helloTrigger, none)
    ∧ processMessage mixedState none "hello" none none =
        some ⟨"Hello there \x7bcrm_name\x7d!", "text", []⟩ := by
  refine ⟨?_, by decide, by decide⟩
  intro t rest p hmt hbad
  have hskip : triggerAttempt t p = none := by
    by_cases ha : t.is_active.getD false
    · simp only [triggerAttempt, ha, hmt]
      norm_num
      simp [pyRegexSearch, hbad]
    · unfold triggerAttempt
      rw [if_pos (by simp [ha])]
  simp [findMatch, hskip]

/-- C8 witness: skipping applied to `badRegexTrigger` in front of the
empty list. -/
theorem invalid_regex_skipped_witness :
    findMatch [badRegexTrigger] "hello" = findMatch [] "hello" :=
  invalid_regex_skipped.1 badRegexTrigger [] "hello" (by decide) (by rfl)

end SmartReply

namespace SmartReply

/-- An `Option Bool` field read as `True` through `.get(..., False)` is
present and `true`. -/
theorem getD_false_eq_some_true {o : Option Bool} (h : o.getD false = true) :
    o = some true := by
  cases o with
  | none => simp at h
  | some b => simp at h; rw [h]

/-- Every mapping collected for a matched trigger has an `is_active`
field that is present and `true`. -/
theorem applicable_mapping_active {mps : List Mapping} {t : Trigger}
    {m : Mapping} (h : m ∈ applicableMappings mps t) :
    m.is_active = some true := by
  unfold applicableMappings at h
  rw [List.mem_filter] at h
  have h2 := h.2
  rw [Bool.and_eq_true] at h2
  exact getD_false_eq_some_true h2.2

/-- C6: a reply is only ever produced through a chain of active entities:
the matched trigger, the selected mapping and the rendered response all
carry `is_active = true`; an inactive (or flag-less) entity is never
matched, selected, or rendered. -/
theorem inactive_never_selected :
    (∀ (ts : List Trigger) (p : String) (t : Trigger)
       (g : Option (List (Option String))),
      findMatch ts p = some (t, g) → t.is_active = some true)
    ∧ (∀ (mps : List Mapping) (t : Trigger) (m : Mapping),
        m ∈ applicableMappings mps t → m.is_active = some true)
    ∧ (∀ (st : EngineState) (cm : Option (String → Option CrmData))
        (msg : String) (uid : Option String) (cd : Option CrmData)
        (r : Reply), processMessage st cm msg uid cd = some r →
        ∃ (t : Trigger) (g : Option (List (Option String))) (sel : Mapping)
          (rid : String) (resp : Response),
          findMatch (pySortedBy prioKey (st.triggers.map Prod.snd))
            (preprocessMessage msg) = some (t, g) ∧
          t.is_active = some true ∧
          sel ∈ applicableMappings st.mappings t ∧
          sel.is_active = some true ∧
          sel.response_id = some rid ∧
          st.responses.lookup rid = some resp ∧
          resp.is_active = some true ∧
          r = ⟨formatResponse (resp.response_text.getD "")
                 (resolveCrm cm uid cd) g,
               resp.response_type.getD "text", resp.attachments.getD []⟩) := by
  refine ⟨?_, ?_, ?_⟩
  · intro ts p t g h
    exact attempt_some_active (findMatch_some_mem h).2
  · intro mps t m h
    exact applicable_mapping_active h
  · intro st cm msg uid cd r h
    simp only [processMessage] at h
    split at h
    · exact absurd h (by simp)
    · rename_i mt tg heq
      split at h
      · exact absurd h (by simp)
      · rename_i hne
        split at h
        · exact absurd h (by simp)
        · rename_i sel rest hsort
          split at h
          · exact absurd h (by simp)
          · rename_i rid hrid
            split at h
            · exact absurd h (by simp)
            · rename_i hrid_ne
              split at h
              · exact absurd h (by simp)
              · rename_i resp hlook
                split at h
                · rename_i hact
                  have hmem : sel ∈ applicableMappings st.mappings mt := by
                    have hm : sel ∈ pySortedBy seqKey
                        (applicableMappings st.mappings mt) := by
                      rw [hsort]
                      exact List.mem_cons_self sel rest
                    unfold pySortedBy at hm
                    exact (List.mem_insertionSort _).mp hm
                  refine ⟨mt, tg, sel, rid, resp, heq,
                    attempt_some_active (findMatch_some_mem heq).2, hmem,
                    applicable_mapping_active hmem, hrid, hlook,
                    getD_false_eq_some_true hact, ?_⟩
                  simp only [Option.some.injEq] at h
                  exact h.symm
                · exact absurd h (by simp)

/-- C6 witness: the chain applied to the concrete greeting scenario. -/
theorem inactive_never_selected_witness :
    ∃ (t : Trigger) (g : Option (List (Option String))) (sel : Mapping)
      (rid : String) (resp : Response),
      findMatch (pySortedBy prioKey (greetState.triggers.map Prod.snd))
        (preprocessMessage "hello") = some (t, g) ∧
      t.is_active = some true ∧
      sel ∈ applicableMappings greetState.mappings t ∧
      sel.is_active = some true ∧
      sel.response_id = some rid ∧
      greetState.responses.lookup rid = some resp ∧
      resp.is_active = some true ∧
      (⟨"Hello there Test User!", "text", []⟩ : Reply) =
        ⟨formatResponse (resp.response_text.getD "")
           (resolveCrm none none (some [("name", "Test User")])) g,
         resp.response_type.getD "text", resp.attachments.getD []⟩ :=
  inactive_never_selected.2.2 greetState none "hello" none
    (some [("name", "Test User")]) ⟨"Hello there Test User!", "text", []⟩
    (by decide)

end SmartReply

namespace SmartReply

/-- C7: once a trigger matched, every downstream failure degrades to the
no-reply outcome `none` rather than an exception (the embedding is a
total function): no active mapping for the trigger, a selected mapping
whose response id is absent from the response store, or a referenced
response whose active flag does not read `true`. -/
theorem downstream_failures_return_none :
    (∀ (st : EngineState) (cm : Option (String → Option CrmData))
       (msg : String) (uid : Option String) (cd : Option CrmData)
       (t : Trigger) (g : Option (List (Option String))),
      findMatch (pySortedBy prioKey (st.triggers.map Prod.snd))
        (preprocessMessage msg) = some (t, g) →
      applicableMappings st.mappings t = [] →
      processMessage st cm msg uid cd = none)
    ∧ (∀ (st : EngineState) (cm : Option (String → Option CrmData))
        (msg : String) (uid : Option String) (cd : Option CrmData)
        (t : Trigger) (g : Option (List (Option String))) (sel : Mapping)
        (rest : List Mapping),
        findMatch (pySortedBy prioKey (st.triggers.map Prod.snd))
          (preprocessMessage msg) = some (t, g) →
        pySortedBy seqKey (applicableMappings st.mappings t) = sel :: rest →
        (∀ rid, sel.response_id = some rid →
          st.responses.lookup rid = none) →
        processMessage st cm msg uid cd = none)
    ∧ (∀ (st : EngineState) (cm : Option (String → Option CrmData))
        (msg : String) (uid : Option String) (cd : Option CrmData)
        (t : Trigger) (g : Option (List (Option String))) (sel : Mapping)
        (rest : List Mapping) (rid : String) (resp : Response),
        findMatch (pySortedBy prioKey (st.triggers.map Prod.snd))
          (preprocessMessage msg) = some (t, g) →
        pySortedBy seqKey (applicableMappings st.mappings t) = sel :: rest →
        sel.response_id = some rid →
        st.responses.lookup rid = some resp →
        resp.is_active.getD false = false →
        processMessage st cm msg uid cd = none) := by
  refine ⟨?_, ?_, ?_⟩
  · intro st cm msg uid cd t g hfm happ
    simp [processMessage, hfm, happ]
  · intro st cm msg uid cd t g sel rest hfm hsort hlook
    have hne : (applicableMappings st.mappings t).isEmpty = false := by
      cases ha : applicableMappings st.mappings t with
      | nil => rw [ha] at hsort; simp [pySortedBy] at hsort
      | cons x xs => simp
    cases hrid : sel.response_id with
    | none => simp [processMessage, hfm, hne, hsort, hrid]
    | some rid =>
      by_cases hempty : rid = ""
      · simp [processMessage, hfm, hne, hsort, hrid, hempty]
      · simp [processMessage, hfm, hne, hsort, hrid, hempty, hlook rid hrid]
  · intro st cm msg uid cd t g sel rest rid resp hfm hsort hrid hlookup hact
    have hne : (applicableMappings st.mappings t).isEmpty = false := by
      cases ha : applicableMappings st.mappings t with
      | nil => rw [ha] at hsort; simp [pySortedBy] at hsort
      | cons x xs => simp
    by_cases hempty : rid = ""
    · simp [processMessage, hfm, hne, hsort, hrid, hempty]
    · simp [processMessage, hfm, hne, hsort, hrid, hempty, hlookup, hact]

/-- C7 witness: the three failure shapes on concrete stores — a matched
`hello` trigger with no mappings, and with a dangling mapping to the
missing response id `RES_404`. -/
theorem downstream_failures_return_none_witness :
    processMessage triggerOnlyState none "hello" none none = none
    ∧ processMessage danglingState none "hello" none none = none := by
  constructor
  · exact downstream_failures_return_none.1 triggerOnlyState none "hello"
      none none helloTrigger none (by decide) (by decide)
  · exact downstream_failures_return_none.2.1 danglingState none "hello"
      none none helloTrigger none danglingMapping [] (by decide) (by decide)
      (fun rid hr => by
        simp only [danglingMapping, Option.some.injEq] at hr
        rw [← hr]
        decide)

/-- C10: a persisted record whose `is_active` field is missing reads
`False` through `.get("is_active", False)` at resolve time — such a
trigger is never matched, such a mapping never collected, such a response
never rendered — while the add operations (whose Python `is_active`
parameter defaults to `True`) always store the flag explicitly. -/
theorem missing_active_flag_means_inactive :
    (∀ (t : Trigger) (p : String), t.is_active = none →
      triggerAttempt t p = none)
    ∧ (∀ (mps : List Mapping) (t : Trigger) (m : Mapping),
        m.is_active = none → m ∉ applicableMappings mps t)
    ∧ (∀ (st : EngineState) (cm : Option (String → Option CrmData))
        (msg : String) (uid : Option String) (cd : Option CrmData)
        (t : Trigger) (g : Option (List (Option String))) (sel : Mapping)
        (rest : List Mapping) (rid : String) (resp : Response),
        findMatch (pySortedBy prioKey (st.triggers.map Prod.snd))
          (preprocessMessage msg) = some (t, g) →
        pySortedBy seqKey (applicableMappings st.mappings t) = sel :: rest →
        sel.response_id = some rid →
        st.responses.lookup rid = some resp →
        resp.is_active = none →
        processMessage st cm msg uid cd = none)
    ∧ (∀ (st : EngineState) (ph mt : String) (intent : Option String)
        (pr : Int) (ts : String), ∃ (tid : String) (tr : Trigger),
        ((addTrigger st ph mt intent pr true ts).2).triggers =
          st.triggers ++ [(tid, tr)] ∧ tr.is_active = some true)
    ∧ (∀ (st : EngineState) (rt rty : String)
        (att : Option (List String)) (fu : Option String) (ts : String),
        ∃ (rid : String) (rec : Response),
        ((addResponse st rt rty att fu true ts).2).responses =
          st.responses ++ [(rid, rec)] ∧ rec.is_active = some true)
    ∧ (∀ (st : EngineState) (tid rid : String)
        (conds : Option (List (String × String))) (ord : Int) (ts : String),
        (st.triggers.lookup tid).isSome → (st.responses.lookup rid).isSome →
        ∃ m : Mapping,
          ((addMapping st tid rid conds ord true ts).2).mappings =
            st.mappings ++ [m] ∧ m.is_active = some true) := by
  refine ⟨?_, ?_, ?_, ?_, ?_, ?_⟩
  · intro t p h
    unfold triggerAttempt
    rw [if_pos (by simp [h])]
  · intro mps t m h hmem
    have := applicable_mapping_active hmem
    rw [h] at this
    exact absurd this (by simp)
  · intro st cm msg uid cd t g sel rest rid resp hfm hsort hrid hlookup hact
    have hne : (applicableMappings st.mappings t).isEmpty = false := by
      cases ha : applicableMappings st.mappings t with
      | nil => rw [ha] at hsort; simp [pySortedBy] at hsort
      | cons x xs => simp
    by_cases hempty : rid = ""
    · simp [processMessage, hfm, hne, hsort, hrid, hempty]
    · simp [processMessage, hfm, hne, hsort, hrid, hempty, hlookup, hact]
  · intro st ph mt intent pr ts
    exact ⟨_, _, rfl, rfl⟩
  · intro st rt rty att fu ts
    exact ⟨_, _, rfl, rfl⟩
  · intro st tid rid conds ord ts hs1 hs2
    have h1 : ¬((st.triggers.lookup tid).isNone = true) := by
      simp only [Option.isNone_iff_eq_none]
      intro he
      rw [he] at hs1
      exact absurd hs1 (by simp)
    have h2 : ¬((st.responses.lookup rid).isNone = true) := by
      simp only [Option.isNone_iff_eq_none]
      intro he
      rw [he] at hs2
      exact absurd hs2 (by simp)
    refine ⟨{ mapping_id := some ("MAP_" ++ pad3 (st.mappings.length + 1)),
              trigger_id := some tid, response_id := some rid,
              conditions := conds.getD [], order_in_sequence := some ord,
              is_active := some true, created_at := some ts,
              updated_at := some ts }, ?_, rfl⟩
    unfold addMapping
    rw [if_neg h1, if_neg h2]

/-- C10 witness: the flag-less `hello` trigger record is never matched,
and a defaulted `add_trigger` over the empty state stores
`is_active = true`. -/
theorem missing_active_flag_means_inactive_witness :
    triggerAttempt noFlagTrigger (preprocessMessage "hello") = none
    ∧ ∃ (tid : String) (tr : Trigger),
        ((addTrigger emptyState "hello" "exact" none 10 true "T0").2).triggers
          = emptyState.triggers ++ [(tid, tr)] ∧ tr.is_active = some true :=
  ⟨missing_active_flag_means_inactive.1 noFlagTrigger
      (preprocessMessage "hello") (by decide),
    missing_active_flag_means_inactive.2.2.2.1 emptyState "hello" "exact"
      none 10 "T0"⟩

end SmartReply


namespace SmartReply

/-- Membership is preserved by the Python sort. -/
theorem mem_pySortedBy {α : Type} {key : α → Int} {l : List α} {x : α} :
    x ∈ pySortedBy key l ↔ x ∈ l :=
  List.mem_insertionSort _

/-- One scan step past a skipped trigger. -/
theorem findMatch_cons_none {u : Trigger} {rest : List Trigger} {p : String}
    (h : triggerAttempt u p = none) :
    findMatch (u :: rest) p = findMatch rest p := by
  simp [findMatch, h]

/-- One scan step at a matching trigger. -/
theorem findMatch_cons_some {u : Trigger} {rest : List Trigger} {p : String}
    {g : Option (List (Option String))} (h : triggerAttempt u p = some g) :
    findMatch (u :: rest) p = some (u, g) := by
  simp [findMatch, h]

/-- Scanning a list in which every element is either skipped or equal to
`t1` or `t2`, where `t1` occurs before `t2` (as a two-element sublist) and
`t2` occurs at most once when distinct from `t1`, selects `t1`. -/
theorem findMatch_first_of_pair {t1 t2 : Trigger} {p : String}
    {g1 : Option (List (Option String))}
    (h1 : triggerAttempt t1 p = some g1)
    (L : List Trigger)
    (hall : ∀ u ∈ L, triggerAttempt u p = none ∨ u = t1 ∨ u = t2)
    (hsub : List.Sublist [t1, t2] L)
    (hcount : t1 ≠ t2 → L.count t2 ≤ 1) :
    findMatch L p = some (t1, g1) := by
  induction L with
  | nil => exact absurd hsub (by simp)
  | cons u rest ih =>
    rcases hall u (List.mem_cons_self u rest) with hnone | hu1 | hu2
    · rw [findMatch_cons_none hnone]
      have hsub' : List.Sublist [t1, t2] rest := by
        cases hsub with
        | cons _ h => exact h
        | cons₂ _ h => exact absurd (h1.symm.trans hnone) (by simp)
      have hcount' : t1 ≠ t2 → rest.count t2 ≤ 1 := by
        intro hne
        have hc := hcount hne
        rw [List.count_cons] at hc
        omega
      exact ih (fun v hv => hall v (List.mem_cons_of_mem u hv)) hsub' hcount'
    · subst hu1
      exact findMatch_cons_some h1
    · subst hu2
      by_cases heq : t1 = u
      · subst heq
        exact findMatch_cons_some h1
      · exfalso
        have hc := hcount heq
        rw [List.count_cons_self] at hc
        have hnotmem : u ∉ rest :=
          List.count_eq_zero.mp (by omega)
        cases hsub with
        | cons _ h => exact hnotmem (h.subset (by simp))
        | cons₂ _ h => exact heq rfl

/-- C1: `process_message` scans the triggers in ascending priority order
with ties broken by insertion order (a stable sort, skipping inactive
entries) and selects the first match: when two active triggers of equal
priority both match and every other stored trigger is skipped, the one
inserted earlier is the one selected; and when no trigger matches, the
outcome is `none` — the no-reply value, distinct from every reply value
(in particular from a reply whose text is the empty string). -/
theorem first_match_wins_stable_sort :
    (∀ (st : EngineState) (l1 l2 l3 : List (String × Trigger))
       (k1 k2 : String) (t1 t2 : Trigger) (msg : String)
       (g1 : Option (List (Option String))),
      st.triggers = l1 ++ (k1, t1) :: (l2 ++ (k2, t2) :: l3) →
      (∀ u ∈ (l1 ++ l2 ++ l3).map Prod.snd,
        triggerAttempt u (preprocessMessage msg) = none) →
      triggerAttempt t1 (preprocessMessage msg) = some g1 →
      (triggerAttempt t2 (preprocessMessage msg)).isSome →
      prioKey t1 = prioKey t2 →
      findMatch (pySortedBy prioKey (st.triggers.map Prod.snd))
        (preprocessMessage msg) = some (t1, g1))
    ∧ (∀ (st : EngineState) (cm : Option (String → Option CrmData))
        (msg : String) (uid : Option String) (cd : Option CrmData),
      (∀ u ∈ st.triggers.map Prod.snd,
        triggerAttempt u (preprocessMessage msg) = none) →
      processMessage st cm msg uid cd = none) := by
  constructor
  · intro st l1 l2 l3 k1 k2 t1 t2 msg g1 hts hjunk h1 h2 hkey
    have hj : ∀ v, v ∈ l1.map Prod.snd ∨ v ∈ l2.map Prod.snd ∨
        v ∈ l3.map Prod.snd →
        triggerAttempt v (preprocessMessage msg) = none := by
      intro v hv
      apply hjunk
      simp only [List.map_append, List.mem_append]
      tauto
    have hj2 : t2 ∉ l1.map Prod.snd ∧ t2 ∉ l2.map Prod.snd ∧
        t2 ∉ l3.map Prod.snd := by
      refine ⟨?_, ?_, ?_⟩ <;>
        · intro hm
          have hn := hj t2 (by tauto)
          rw [hn] at h2
          exact absurd h2 (by simp)
    apply findMatch_first_of_pair h1
    · intro u hu
      have hu' := mem_pySortedBy.mp hu
      rw [hts] at hu'
      simp only [List.map_append, List.map_cons] at hu'
      rw [List.mem_append] at hu'
      rcases hu' with hA | hrest
      · exact Or.inl (hj u (Or.inl hA))
      · rw [List.mem_cons] at hrest
        rcases hrest with he1 | hrest
        · exact Or.inr (Or.inl he1)
        · rw [List.mem_append] at hrest
          rcases hrest with hB | hrest
          · exact Or.inl (hj u (Or.inr (Or.inl hB)))
          · rw [List.mem_cons] at hrest
            rcases hrest with he2 | hC
            · exact Or.inr (Or.inr he2)
            · exact Or.inl (hj u (Or.inr (Or.inr hC)))
    · unfold pySortedBy
      apply List.pair_sublist_insertionSort
        (r := fun a b : Trigger => prioKey a ≤ prioKey b) (le_of_eq hkey)
      rw [hts]
      simp only [List.map_append, List.map_cons]
      have s1 : List.Sublist [t2]
          ((l2.map Prod.snd) ++ t2 :: (l3.map Prod.snd)) :=
        List.sublist_append_of_sublist_right
          (List.Sublist.cons₂ t2 (List.nil_sublist _))
      have s2 : List.Sublist [t1, t2]
          (t1 :: ((l2.map Prod.snd) ++ t2 :: (l3.map Prod.snd))) :=
        List.Sublist.cons₂ t1 s1
      exact List.sublist_append_of_sublist_right s2
    · intro hne
      have hceq : (pySortedBy prioKey (st.triggers.map Prod.snd)).count t2 =
          (st.triggers.map Prod.snd).count t2 :=
        (List.perm_insertionSort _ _).count_eq t2
      rw [hceq, hts]
      simp only [List.map_append, List.map_cons, List.count_append,
        List.count_cons]
      have c1 : (l1.map Prod.snd).count t2 = 0 :=
        List.count_eq_zero.mpr hj2.1
      have c2 : (l2.map Prod.snd).count t2 = 0 :=
        List.count_eq_zero.mpr hj2.2.1
      have c3 : (l3.map Prod.snd).count t2 = 0 :=
        List.count_eq_zero.mpr hj2.2.2
      have cne : (t1 == t2) = false := by
        simp only [beq_eq_false_iff_ne, ne_eq]
        exact hne
      rw [c1, c2, c3, cne]
      simp
  · intro st cm msg uid cd hall
    have hnone : findMatch (pySortedBy prioKey (st.triggers.map Prod.snd))
        (preprocessMessage msg) = none := by
      apply findMatch_none_of_all
      intro u hu
      exact hall u (mem_pySortedBy.mp hu)
    simp [processMessage, hnone]

/-- C1 witness: in a store holding the two equal-priority `hi` triggers
in insertion order, the first one is selected for the message `Hi`; and a
store whose sole trigger matches nothing replies `none`. -/
theorem first_match_wins_stable_sort_witness :
    findMatch (pySortedBy prioKey (hiState.triggers.map Prod.snd))
      (preprocessMessage "Hi") = some (hiFirstTrigger, none)
    ∧ processMessage triggerOnlyState none "goodbye" none none = none :=
  ⟨first_match_wins_stable_sort.1 hiState [] [] [] "TRG_001" "TRG_002"
      hiFirstTrigger hiSecondTrigger "Hi" none rfl (by decide) (by decide)
      (by decide) (by decide),
    first_match_wins_stable_sort.2 triggerOnlyState none "goodbye" none none
      (by decide)⟩

end SmartReply
